import Mathlib

/-!
Verification development for the homieflow bridge (Homie MQTT ↔ Google Home
fulfillment).  The definitions below are a shallow embedding of the Rust
sources: `src/homie.rs` / `src/homie/mod.rs` (property codec, state
reporting), `src/fulfillment/sync.rs` (capability synthesis),
`server/src/fulfillment/ghome/query.rs` (query handling),
`src/fulfillment/execute.rs` (command execution) and `src/ratelimit.rs`
(the debounced sync notifier).

Modelling conventions:
* Rust `i64` values are embedded as `Int`; Rust `/` on integers is the
  truncating division `Int.tdiv`.  Rust `f64` values are embedded as `ℚ`
  (every numeric literal and operation appearing in the verified claims is
  exact in both `f64` and `ℚ`).
* Rust `HashMap` values are embedded as association lists
  (`List (String × α)`) with `List.lookup`; the code only ever looks maps
  up by key or iterates over values.
* Fallible operations return `Option`; where the Rust code can panic the
  panic condition is captured by an explicit companion predicate.
-/

namespace Homieflow

/-- Numeric value of an ASCII digit. -/
def digitVal (c : Char) : Nat := c.toNat - 48

/-- Splits a character list at every occurrence of `sep`, keeping empty
segments, with `acc` the (reversed) segment read so far. -/
def splitOnCharAux (sep : Char) : List Char → List Char → List (List Char)
  | [], acc => [acc.reverse]
  | c :: cs, acc =>
    if c = sep then acc.reverse :: splitOnCharAux sep cs []
    else splitOnCharAux sep cs (c :: acc)

/-- Rust `str::split` with a single-character separator: `""` yields
`[""]`, and separators at the ends yield empty segments. -/
def splitChar (s : String) (sep : Char) : List String :=
  (splitOnCharAux sep s.toList []).map fun cs => String.mk cs

/-- Accumulating decimal-digit parser: fails on the first non-digit. -/
def parseDigitsAux : List Char → Nat → Option Nat
  | [], acc => some acc
  | c :: cs, acc =>
    if c.isDigit then parseDigitsAux cs (acc * 10 + digitVal c) else none

/-- Parses a non-empty string of decimal digits.  Modelled from the spec:
the behaviour of Rust `str::parse` for unsigned integers (an optional
leading `+` sign is accepted). -/
def parseNat (s : String) : Option Nat :=
  match s.toList with
  | [] => none
  | '+' :: cs => match cs with
    | [] => none
    | _ => parseDigitsAux cs 0
  | cs => parseDigitsAux cs 0

/-- Parses a Rust `u8` (decimal, range-checked). -/
def parseU8 (s : String) : Option Nat :=
  (parseNat s).bind fun n => if n ≤ 255 then some n else none

/-- Parses a Rust `u16` (decimal, range-checked). -/
def parseU16 (s : String) : Option Nat :=
  (parseNat s).bind fun n => if n ≤ 65535 then some n else none

/-- Optional sign followed by decimal digits, as an unbounded integer. -/
def parseIntRaw (s : String) : Option Int :=
  match s.toList with
  | '-' :: cs => match cs with
    | [] => none
    | _ => (parseDigitsAux cs 0).map fun n => -(n : Int)
  | '+' :: cs => match cs with
    | [] => none
    | _ => (parseDigitsAux cs 0).map fun n => (n : Int)
  | [] => none
  | cs => (parseDigitsAux cs 0).map fun n => (n : Int)

/-- Parses a Rust `i64`: optional sign, decimal digits, range check.
Modelled from the spec: Rust `str::parse::<i64>`. -/
def parseI64 (s : String) : Option Int :=
  (parseIntRaw s).bind fun v =>
    if -(2 ^ 63 : Int) ≤ v ∧ v < 2 ^ 63 then some v else none

/-- Parses `"true"` / `"false"`, the Homie boolean encoding. -/
def parseBool (s : String) : Option Bool :=
  if s = "true" then some true
  else if s = "false" then some false
  else none

/-- Parses a decimal floating-point literal into an exact rational.
Modelled from the spec: the common decimal forms accepted by Rust
`str::parse::<f64>` (exponents and the special values are not modelled;
no verified claim depends on them). -/
def parseQ (s : String) : Option ℚ :=
  let body : List Char → Option ℚ := fun cs =>
    match splitChar (String.mk cs) '.' with
    | [i] => (parseNat i).map fun n => (n : ℚ)
    | [i, f] =>
      (parseNat i).bind fun ni =>
        (parseNat f).map fun nf =>
          (ni : ℚ) + (nf : ℚ) / (10 : ℚ) ^ f.length
    | _ => none
  match s.toList with
  | '-' :: cs => (body cs).map fun q => -q
  | '+' :: cs => body cs
  | cs => body cs

/-- Rust `as u8` cast from `i64`: keeps the low 8 bits. -/
def i64AsU8 (n : Int) : Nat := (n % 256).toNat

/-- Two's-complement wrap of a mathematical integer into the `i64` range
`[-2^63, 2^63)`.  Release-mode Rust arithmetic wraps overflowing `i64`
results to exactly this value; debug builds panic at the overflowing
operation instead (the companion overflow predicates below record where
that happens). -/
def wrap64 (n : Int) : Int := (n + 2 ^ 63) % 2 ^ 64 - 2 ^ 63

/-- Whether a mathematical integer lies in the `i64` range, i.e. whether
the corresponding Rust operation neither wraps (release) nor panics
(debug). -/
def fitsI64 (n : Int) : Bool := decide (-(2 ^ 63) ≤ n ∧ n < 2 ^ 63)

/-- Rust `as u8` cast from `f64`: saturating truncation toward zero into
`[0, 255]` (for the rational model; negative inputs saturate to `0`, so
floor agrees with truncation on the non-saturated range). -/
def ratAsU8 (q : ℚ) : Nat := (min 255 (max 0 ⌊q⌋)).toNat

/-- Rust `as u16` cast from `f64`: saturating truncation into `[0, 65535]`. -/
def ratAsU16 (q : ℚ) : Nat := (min 65535 (max 0 ⌊q⌋)).toNat

/-- The `cap` helper from `src/homie.rs`: clamps `value` to `[lo, hi]`. -/
def cap {α : Type} [LinearOrder α] (value lo hi : α) : α :=
  if value < lo then lo
  else if value > hi then hi
  else value

/-- Homie property datatypes (`homie_controller::Datatype`). -/
inductive Datatype
  | integer
  | float
  | boolean
  | str
  | enum
  | color
deriving DecidableEq, BEq, Repr

/-- Homie device lifecycle states (`homie_controller::State`). -/
inductive HState
  | ready
  | sleeping
  | lost
  | disconnected
  | alert
  | unknown
deriving DecidableEq, BEq, Repr

/-- Homie color format tag (`homie_controller::ColorFormat`). -/
inductive ColorFormat
  | rgb
  | hsv
deriving DecidableEq, BEq, Repr

/-- An RGB color triple (`homie_controller::ColorRgb`, `u8` channels). -/
structure ColorRgb where
  r : Nat
  g : Nat
  b : Nat
deriving DecidableEq, Repr

/-- An HSV color triple (`homie_controller::ColorHsv`: `u16` hue, `u8`
saturation and value). -/
structure ColorHsv where
  h : Nat
  s : Nat
  v : Nat
deriving DecidableEq, Repr

/-- A Homie property (`homie_controller::Property`). -/
structure Property where
  id : String
  name : Option String := none
  datatype : Option Datatype := none
  settable : Bool := false
  retained : Bool := true
  unit : Option String := none
  format : Option String := none
  value : Option String := none
deriving DecidableEq, Repr

/-- A Homie node: one controllable unit, with its properties keyed by id. -/
structure Node where
  id : String
  name : Option String := none
  nodeType : Option String := none
  properties : List (String × Property) := []
deriving DecidableEq, Repr

/-- A Homie device: a connected piece of hardware with nodes keyed by id. -/
structure Device where
  id : String
  name : Option String := none
  state : HState
  nodes : List (String × Node) := []
deriving DecidableEq, Repr

/-- Map lookup on a node's property set (`node.properties.get(key)`). -/
def Node.prop (n : Node) (pid : String) : Option Property :=
  n.properties.lookup pid

/-- `property.value::<bool>().ok()`: the raw value parsed as a boolean. -/
def Property.valueBool (p : Property) : Option Bool :=
  p.value.bind parseBool

/-- `property.value::<i64>().ok()`: the raw value parsed as an `i64`. -/
def Property.valueI64 (p : Property) : Option Int :=
  p.value.bind parseI64

/-- `property.value::<f64>().ok()`: the raw value parsed as an `f64`
(rational model). -/
def Property.valueQ (p : Property) : Option ℚ :=
  p.value.bind parseQ

/-- `property.value::<ColorRgb>().ok()`.  Modelled from the spec: the raw
value is three comma-separated 0–255 channel values. -/
def Property.valueRgb (p : Property) : Option ColorRgb :=
  p.value.bind fun s =>
    match splitChar s ',' with
    | [a, b, c] =>
      (parseU8 a).bind fun r =>
        (parseU8 b).bind fun g =>
          (parseU8 c).map fun bl => ColorRgb.mk r g bl
    | _ => none

/-- `property.value::<ColorHsv>().ok()`.  Modelled from the spec: the raw
value is comma-separated `h` (0–360), `s` (0–100), `v` (0–100). -/
def Property.valueHsv (p : Property) : Option ColorHsv :=
  p.value.bind fun s =>
    match splitChar s ',' with
    | [a, b, c] =>
      (parseU16 a).bind fun hh =>
        (parseU8 b).bind fun ss =>
          (parseU8 c).map fun vv => ColorHsv.mk hh ss vv
    | _ => none

/-- `property.range::<i64>().ok()`.  Modelled from the spec: the `format`
attribute encodes a numeric range `"min:max"`; both ends are parsed, with
no requirement that `min < max`. -/
def Property.rangeI64 (p : Property) : Option (Int × Int) :=
  p.format.bind fun f =>
    match splitChar f ':' with
    | [a, b] => (parseI64 a).bind fun lo => (parseI64 b).map fun hi => (lo, hi)
    | _ => none

/-- `property.range::<f64>().ok()` (rational model of the float range). -/
def Property.rangeQ (p : Property) : Option (ℚ × ℚ) :=
  p.format.bind fun f =>
    match splitChar f ':' with
    | [a, b] => (parseQ a).bind fun lo => (parseQ b).map fun hi => (lo, hi)
    | _ => none

/-- `property.color_format().ok()`.  Modelled from the spec: the `format`
attribute of a color property is the color-space tag `"rgb"` or `"hsv"`. -/
def Property.colorFmt (p : Property) : Option ColorFormat :=
  p.format.bind fun f =>
    if f = "rgb" then some ColorFormat.rgb
    else if f = "hsv" then some ColorFormat.hsv
    else none

/-- `ColorRgb` rendered back to the Homie wire encoding `"r,g,b"`. -/
def ColorRgb.encode (c : ColorRgb) : String :=
  toString c.r ++ "," ++ toString c.g ++ "," ++ toString c.b

/-- `ColorHsv` rendered back to the Homie wire encoding `"h,s,v"`. -/
def ColorHsv.encode (c : ColorHsv) : String :=
  toString c.h ++ "," ++ toString c.s ++ "," ++ toString c.v

/-- `property_value_to_percentage` (`src/homie.rs`): scales the value of
the given property to a percentage.  The Integer arm embeds
`(value - range.start()) * 100 / (range.end() - range.start())` with
release-mode `i64` semantics: the subtraction, the multiplication and the
range-width subtraction each wrap on overflow (`wrap64`; debug builds
panic there instead, see `property_value_to_percentage_overflows`), and
the division is Rust's truncating `Int.tdiv`.  The Float arm uses exact
rational division.  The result of `cap(_, 0, 100)` is cast with `as u8`. -/
def property_value_to_percentage (p : Property) : Option Nat :=
  match p.datatype with
  | some Datatype.integer =>
    (p.valueI64).bind fun value =>
      (p.rangeI64).bind fun r =>
        let percentage :=
          (wrap64 (wrap64 (value - r.1) * 100)).tdiv (wrap64 (r.2 - r.1))
        let percentage := cap percentage 0 100
        some (i64AsU8 percentage)
  | some Datatype.float =>
    (p.valueQ).bind fun value =>
      (p.rangeQ).bind fun r =>
        let percentage := (value - r.1) * 100 / (r.2 - r.1)
        let percentage := cap percentage 0 100
        some (ratAsU8 percentage)
  | _ => none

/-- Panic condition of `property_value_to_percentage` common to every
build mode: the Integer arm divides by `range.end() - range.start()` with
no guard, and Rust `i64` division panics when the divisor is zero and on
the overflow corner `i64::MIN / -1`.  The total model above returns the
Lean convention `Int.tdiv _ 0 = 0` on the first path, so the divergence
is recorded here. -/
def property_value_to_percentage_panics (p : Property) : Bool :=
  match p.datatype with
  | some Datatype.integer =>
    match p.valueI64, p.rangeI64 with
    | some v, some r =>
      wrap64 (r.2 - r.1) == 0 ||
        (wrap64 (wrap64 (v - r.1) * 100) == -(2 ^ 63) &&
          wrap64 (r.2 - r.1) == -1)
    | _, _ => false
  | _ => false

/-- Overflow condition of `property_value_to_percentage`: true when one
of the Integer arm's intermediate `i64` results leaves the `i64` range,
where release-mode Rust wraps (as modelled) and debug-mode Rust panics. -/
def property_value_to_percentage_overflows (p : Property) : Bool :=
  match p.datatype with
  | some Datatype.integer =>
    match p.valueI64, p.rangeI64 with
    | some v, some r =>
      !fitsI64 (v - r.1) || !fitsI64 (wrap64 (v - r.1) * 100) ||
        !fitsI64 (r.2 - r.1)
    | _, _ => false
  | _ => false

/-- `percentage_to_property_value` (`src/homie.rs`): converts a percentage
to the appropriately scaled property value, if the property has a range.
The Integer arm embeds
`range.start() + percentage as i64 * (range.end() - range.start()) / 100`
with release-mode `i64` semantics (each subtraction, multiplication and
addition wraps on overflow; debug builds panic there instead, see
`percentage_to_property_value_overflows`).  The Float arm renders the
rational result with `toString`; Rust's shortest `f64` `Display` form is
not reproduced (no verified claim reads it). -/
def percentage_to_property_value (p : Property) (percentage : Nat) : Option String :=
  match p.datatype with
  | some Datatype.integer =>
    (p.rangeI64).map fun r =>
      toString (wrap64 (r.1 +
        (wrap64 ((percentage : Int) * wrap64 (r.2 - r.1))).tdiv 100))
  | some Datatype.float =>
    (p.rangeQ).map fun r =>
      toString (r.1 + (percentage : ℚ) * (r.2 - r.1) / 100)
  | _ => none

/-- Overflow condition of `percentage_to_property_value`: true when one
of the Integer arm's intermediate `i64` results leaves the `i64` range
(its division by the constant `100` never panics). -/
def percentage_to_property_value_overflows (p : Property) (percentage : Nat) : Bool :=
  match p.datatype with
  | some Datatype.integer =>
    match p.rangeI64 with
    | some r =>
      !fitsI64 (r.2 - r.1) ||
        !fitsI64 ((percentage : Int) * wrap64 (r.2 - r.1)) ||
        !fitsI64 (r.1 + (wrap64 ((percentage : Int) * wrap64 (r.2 - r.1))).tdiv 100)
    | none => false
  | _ => false

/-- `property_value_to_number` (`src/homie.rs`): the property value as a
JSON number, for Integer and Float datatypes. -/
def property_value_to_number (p : Property) : Option ℚ :=
  match p.datatype with
  | some Datatype.integer => (p.valueI64).map fun v => (v : ℚ)
  | some Datatype.float => p.valueQ
  | _ => none

/-- Google Home query-response color value
(`google_smart_home::query::response::Color`). -/
inductive GColor
  | spectrumRgb (rgb : Nat)
  | spectrumHsv (hue saturation value : ℚ)
deriving DecidableEq, Repr

/-- Google Home query-response state
(`google_smart_home::query::response::State`); only the fields this
program ever sets are modelled.  `Default::default()` has `online = false`
and every optional field absent. -/
structure GQueryState where
  online : Bool := false
  /-- The source field is named `on`; renamed here because `on` is a
  reserved notation token in this development's ambient library. -/
  isOn : Option Bool := none
  brightness : Option Nat := none
  color : Option GColor := none
  thermostatTemperatureAmbient : Option ℚ := none
  thermostatHumidityAmbient : Option ℚ := none
deriving DecidableEq, Repr

/-- Google Home device command color payload
(`google_smart_home::device::commands::ColorValue`). -/
inductive GColorValue
  | rgb (spectrumRgb : Nat)
  | hsv (hue saturation value : ℚ)
deriving DecidableEq, Repr

/-- The `ColorAbsolute` command payload: an optional color name and the
tagged color value. -/
structure GColorAbsolute where
  colorName : Option String := none
  colorValue : GColorValue
deriving DecidableEq, Repr

/-- `property_value_to_color` (`src/homie.rs`): the property value as a
Google Home color, dispatching on the property's declared color format. -/
def property_value_to_color (p : Property) : Option GColor :=
  (p.colorFmt).bind fun colorFormat =>
    match colorFormat with
    | ColorFormat.rgb =>
      (p.valueRgb).map fun rgb =>
        GColor.spectrumRgb (rgb.r * 65536 + rgb.g * 256 + rgb.b)
    | ColorFormat.hsv =>
      (p.valueHsv).map fun hsv =>
        GColor.spectrumHsv (hsv.h : ℚ) ((hsv.s : ℚ) / 100) ((hsv.v : ℚ) / 100)

/-- `color_absolute_to_property_value` (`src/homie.rs`): converts a Google
Home `ColorAbsolute` command to the value to set on the given property.
The RGB arm unpacks the 24-bit integer with `>> 16`, `>> 8` and `as u8`
truncation; the HSV arm scales saturation and value by 100 with `as u16` /
`as u8` casts.  A command whose tagged representation does not match the
property's declared format falls through to `none`. -/
def color_absolute_to_property_value (p : Property) (colorAbsolute : GColorAbsolute) :
    Option String :=
  (p.colorFmt).bind fun colorFormat =>
    match colorFormat with
    | ColorFormat.rgb =>
      match colorAbsolute.colorValue with
      | GColorValue.rgb spectrumRgb =>
        some (ColorRgb.encode
          (ColorRgb.mk (spectrumRgb / 65536 % 256) (spectrumRgb / 256 % 256)
            (spectrumRgb % 256)))
      | _ => none
    | ColorFormat.hsv =>
      match colorAbsolute.colorValue with
      | GColorValue.hsv hue saturation value =>
        some (ColorHsv.encode
          (ColorHsv.mk (ratAsU16 hue) (ratAsU8 (saturation * 100))
            (ratAsU8 (value * 100))))
      | _ => none

/-- Google Home device types used by the capability synthesizer
(`google_smart_home::device::Type`). -/
inductive GDeviceType
  | switch
  | light
  | thermostat
deriving DecidableEq, Repr

/-- Google Home device traits used by the capability synthesizer
(`google_smart_home::device::Trait`). -/
inductive GDeviceTrait
  | onOff
  | brightness
  | colorSetting
  | temperatureSetting
deriving DecidableEq, Repr

/-- Sync-response color model attribute. -/
inductive GColorModel
  | rgb
  | hsv
deriving DecidableEq, Repr

/-- Sync-response thermostat temperature unit. -/
inductive GTemperatureUnit
  | celsius
  | fahrenheit
deriving DecidableEq, Repr

/-- Sync-response device attributes
(`google_smart_home::sync::response::Attributes`); only the fields this
program ever sets are modelled, all absent by default. -/
structure GAttributes where
  colorModel : Option GColorModel := none
  availableThermostatModes : Option (List String) := none
  thermostatTemperatureUnit : Option GTemperatureUnit := none
  queryOnlyTemperatureSetting : Option Bool := none
deriving DecidableEq, Repr

/-- Sync-response device name block. -/
structure GDeviceName where
  defaultNames : Option (List String) := none
  name : String
  nicknames : Option (List String) := none
deriving DecidableEq, Repr

/-- Sync-response device descriptor
(`google_smart_home::sync::response::PayloadDevice`); the fields the
program always leaves at their defaults (`device_info`, `custom_data`,
`other_device_ids`) are omitted. -/
structure GSyncDevice where
  id : String
  deviceType : GDeviceType
  traits : List GDeviceTrait
  name : GDeviceName
  willReportState : Bool
  notificationSupportedByAgent : Bool := false
  roomHint : Option String := none
  attributes : GAttributes
deriving DecidableEq, Repr

/-- `homie_node_to_google_home` (`src/fulfillment/sync.rs`): derives a
Google Home device descriptor from a Homie node.  The rules run
cumulatively in source order (on, brightness, color, temperature) with
last-write-wins type assignment, and the whole descriptor is dropped when
no rule assigned a device type. -/
def homie_node_to_google_home (device : Device) (node : Node) : Option GSyncDevice :=
  let id := device.id ++ "/" ++ node.id
  let traits : List GDeviceTrait := []
  let attributes : GAttributes := {}
  let deviceType : Option GDeviceType := none
  let (deviceType, traits) :=
    if (node.prop "on").isSome then
      (some GDeviceType.switch, traits ++ [GDeviceTrait.onOff])
    else (deviceType, traits)
  let (deviceType, traits) :=
    if (node.prop "brightness").isSome then
      ((if (node.prop "on").isSome then some GDeviceType.light else deviceType),
        traits ++ [GDeviceTrait.brightness])
    else (deviceType, traits)
  let (deviceType, traits, attributes) :=
    match node.prop "color" with
    | some color =>
      match color.colorFmt with
      | some colorFormat =>
        let colorModel := match colorFormat with
          | ColorFormat.rgb => GColorModel.rgb
          | ColorFormat.hsv => GColorModel.hsv
        (some GDeviceType.light, traits ++ [GDeviceTrait.colorSetting],
          { attributes with colorModel := some colorModel })
      | none => (deviceType, traits, attributes)
    | none => (deviceType, traits, attributes)
  let (deviceType, traits, attributes) :=
    if (node.prop "temperature").isSome then
      (some GDeviceType.thermostat, traits ++ [GDeviceTrait.temperatureSetting],
        { attributes with
            availableThermostatModes := some ["off"],
            thermostatTemperatureUnit := some GTemperatureUnit.celsius,
            queryOnlyTemperatureSetting := some true })
    else (deviceType, traits, attributes)
  let deviceName := device.name.getD device.id
  let nodeName := node.name.getD node.id
  let willReportState := !traits.isEmpty
  match deviceType with
  | none => none
  | some dt =>
    some
      { id := id
        deviceType := dt
        traits := traits
        name :=
          { defaultNames := none
            name := deviceName ++ " " ++ nodeName
            nicknames := some [nodeName] }
        willReportState := willReportState
        attributes := attributes }

/-- `homie_devices_to_google_home` (`src/fulfillment/sync.rs`): iterates
over all devices, keeps only those in state `Ready` or `Sleeping`, and
collects the descriptors of their nodes. -/
def homie_devices_to_google_home (devices : List (String × Device)) :
    List GSyncDevice :=
  devices.flatMap fun kd =>
    if kd.2.state == HState.ready || kd.2.state == HState.sleeping then
      kd.2.nodes.filterMap fun kn => homie_node_to_google_home kd.2 kn.2
    else []

/-- `get_homie_device_by_id` (`src/fulfillment/homie.rs`): resolves a
composite `"device_id/node_id"` address to a device/node pair. -/
def get_homie_device_by_id (devices : List (String × Device)) (id : String) :
    Option (Device × Node) :=
  match splitChar id '/' with
  | [deviceId, nodeId] =>
    (devices.lookup deviceId).bind fun device =>
      (device.nodes.lookup nodeId).map fun node => (device, node)
  | _ => none

/-- `get_homie_node` (`src/homie/mod.rs`): resolves separate device and
node ids to a device/node pair. -/
def get_homie_node (devices : List (String × Device)) (deviceId nodeId : String) :
    Option (Device × Node) :=
  (devices.lookup deviceId).bind fun device =>
    (device.nodes.lookup nodeId).map fun node => (device, node)

/-- Query-response per-device status
(`google_smart_home::query::response::PayloadDeviceStatus`). -/
inductive GQueryStatus
  | success
  | offline
  | error
deriving DecidableEq, Repr

/-- Query-response per-device payload. -/
structure GQueryDevice where
  state : GQueryState
  status : GQueryStatus
  errorCode : Option String
deriving DecidableEq, Repr

/-- A device entry of a query request: the composite node address (the
request's `custom_data` is never read). -/
structure GQueryRequestDevice where
  id : String
deriving DecidableEq, Repr

/-- `get_homie_device` (`server/src/fulfillment/ghome/query.rs`): answers
one query-request address.  Resolvable and reachable devices report their
live state with `online = true`; resolvable but unreachable devices
report `Offline` with error code `"offline"`; unresolvable addresses
report `Error` with error code `"deviceNotFound"`. -/
def get_homie_device (devices : List (String × Device))
    (requestDevice : GQueryRequestDevice) : GQueryDevice :=
  match get_homie_device_by_id devices requestDevice.id with
  | some (device, node) =>
    if device.state == HState.ready || device.state == HState.sleeping then
      { state :=
          { online := true
            isOn := (node.prop "on").bind Property.valueBool
            brightness := (node.prop "brightness").bind property_value_to_percentage
            color := (node.prop "color").bind property_value_to_color
            thermostatTemperatureAmbient :=
              (node.prop "temperature").bind property_value_to_number
            thermostatHumidityAmbient :=
              (node.prop "humidity").bind property_value_to_number }
        status := GQueryStatus.success
        errorCode := none }
    else
      { state := {}
        status := GQueryStatus.offline
        errorCode := some "offline" }
  | none =>
    { state := {}
      status := GQueryStatus.error
      errorCode := some "deviceNotFound" }

/-- `get_homie_devices` (`server/src/fulfillment/ghome/query.rs`): answers
a batch of query-request addresses, one response entry per request keyed
by the request id (the Rust code collects the same pairs into a map). -/
def get_homie_devices (devices : List (String × Device))
    (requestDevices : List GQueryRequestDevice) :
    List (String × GQueryDevice) :=
  requestDevices.map fun d => (d.id, get_homie_device devices d)

/-- Execute-request commands handled by the bridge
(`google_smart_home::device::Command`); every other command variant is
collapsed into `other`, which the source handles with a catch-all arm. -/
inductive GCommand
  | onOff (on_ : Bool)
  | brightnessAbsolute (brightness : Nat)
  | colorAbsolute (ca : GColorAbsolute)
  | other
deriving DecidableEq, Repr

/-- Execute-response per-command status
(`google_smart_home::execute::response::PayloadCommandStatus`). -/
inductive GCommandStatus
  | pending
  | error
deriving DecidableEq, Repr

/-- Execute-response per-command payload (its constant-`Default` `states`
field is omitted). -/
structure GExecuteCommand where
  ids : List String
  status : GCommandStatus
  errorCode : Option String := none
deriving DecidableEq, Repr

/-- `command_error` (`src/fulfillment/execute.rs`). -/
def command_error (ids : List String) (errorCode : String) : GExecuteCommand :=
  { ids := ids
    status := GCommandStatus.error
    errorCode := some errorCode }

/-- `set_value` (`src/fulfillment/execute.rs`): writes a property value
through the controller; the transport write is embedded as the function
`setOk` (`true` = the MQTT publish succeeded). -/
def set_value (setOk : String → String → String → String → Bool)
    (device : Device) (node : Node) (propertyId : String) (value : String)
    (ids : List String) : GExecuteCommand :=
  if setOk device.id node.id propertyId value then
    { ids := ids
      status := GCommandStatus.pending
      errorCode := none }
  else command_error ids "transientError"

/-- `execute_homie_device` (`src/fulfillment/execute.rs`): executes one
command against one composite address.  Unresolvable addresses yield
`deviceNotFound`; resolvable addresses without a matching settable
capability yield `actionNotAvailable`. -/
def execute_homie_device (setOk : String → String → String → String → Bool)
    (devices : List (String × Device)) (execution : GCommand)
    (commandDeviceId : String) : GExecuteCommand :=
  let ids := [commandDeviceId]
  match get_homie_device_by_id devices commandDeviceId with
  | some (device, node) =>
    match execution with
    | GCommand.onOff onValue =>
      match node.prop "on" with
      | some onProp =>
        if onProp.datatype == some Datatype.boolean then
          set_value setOk device node "on" (if onValue then "true" else "false") ids
        else command_error ids "actionNotAvailable"
      | none => command_error ids "actionNotAvailable"
    | GCommand.brightnessAbsolute brightnessValue =>
      match node.prop "brightness" with
      | some brightness =>
        match percentage_to_property_value brightness brightnessValue with
        | some value => set_value setOk device node "brightness" value ids
        | none => command_error ids "actionNotAvailable"
      | none => command_error ids "actionNotAvailable"
    | GCommand.colorAbsolute colorAbsolute =>
      match node.prop "color" with
      | some color =>
        match color_absolute_to_property_value color colorAbsolute with
        | some value => set_value setOk device node "color" value ids
        | none => command_error ids "actionNotAvailable"
      | none => command_error ids "actionNotAvailable"
    | GCommand.other => command_error ids "actionNotAvailable"
  | none => command_error ids "deviceNotFound"

/-- `execute_homie_devices` (`src/fulfillment/execute.rs`): executes a
batch of (execution, device) request pairs, one response per pair. -/
def execute_homie_devices (setOk : String → String → String → String → Bool)
    (devices : List (String × Device))
    (requests : List (GCommand × String)) : List GExecuteCommand :=
  requests.map fun r => execute_homie_device setOk devices r.1 r.2

/-- Modelled from the spec: `homie_node_to_state` lives in
`src/homie/state.rs`, which is absent from the provided sources.  Per the
spec's State Reporter (§4.5) and its caller `node_state_changed` in
`src/homie/mod.rs`, it builds the cloud state payload from the node's
`on` / `brightness` / `color` / `temperature` / `humidity` properties via
the property codec and stamps the availability passed in by the caller. -/
def homie_node_to_state (node : Node) (online : Bool) : GQueryState :=
  { online := online
    isOn := (node.prop "on").bind Property.valueBool
    brightness := (node.prop "brightness").bind property_value_to_percentage
    color := (node.prop "color").bind property_value_to_color
    thermostatTemperatureAmbient :=
      (node.prop "temperature").bind property_value_to_number
    thermostatHumidityAmbient :=
      (node.prop "humidity").bind property_value_to_number }

/-- `node_state_changed` (`src/homie/mod.rs`), state-construction part:
on a fresh property-value change the node is resolved and its payload is
built with `online` derived from the owning device's state
(`Ready || Sleeping`).  The subsequent cloud call is I/O and not
modelled. -/
def node_state_changed_payload (devices : List (String × Device))
    (deviceId nodeId : String) : Option GQueryState :=
  (get_homie_node devices deviceId nodeId).map fun dn =>
    homie_node_to_state dn.2
      (dn.1.state == HState.ready || dn.1.state == HState.sleeping)

/-- Phase of the `RateLimiter` background task (`src/ratelimit.rs`):
parked in `notify.notified().await`, running the callback, or sleeping
out the period after a run. -/
inductive RLPhase
  | parked
  | running
  | sleeping
deriving DecidableEq, BEq, Repr

/-- Discrete state of one `RateLimiter`: the `tokio::sync::Notify` permit
(at most one stored notification), the background task's phase, and the
number of callback invocations started so far. -/
structure RLState where
  permit : Bool
  phase : RLPhase
  runs : Nat
deriving DecidableEq, Repr

/-- A fresh `RateLimiter`: background task parked, no stored permit, no
run yet. -/
def RLState.idle : RLState :=
  { permit := false, phase := RLPhase.parked, runs := 0 }

/-- Atomic events of the rate-limiter model: `exec` is a call to
`RateLimiter::execute` (`notify.notify_one()`); `finish` is the callback
future completing (the task moves on to `sleep(period)`); `wake` is the
period elapsing (the task loops back to `notified().await`). -/
inductive RLEvent
  | exec
  | finish
  | wake
deriving DecidableEq, Repr

/-- One step of the rate-limiter loop
(`callback_run_loop` in `src/ratelimit.rs` plus `tokio::sync::Notify`
semantics): `notify_one` wakes a parked waiter directly, and otherwise
stores a single permit — repeated notifications do not accumulate.
A wake of a sleeping task re-checks `notified()`: a stored permit is
consumed and the callback runs again, otherwise the task parks. -/
def rlStep (s : RLState) : RLEvent → RLState
  | RLEvent.exec =>
    match s.phase with
    | RLPhase.parked => { s with phase := RLPhase.running, runs := s.runs + 1 }
    | _ => { s with permit := true }
  | RLEvent.finish =>
    match s.phase with
    | RLPhase.running => { s with phase := RLPhase.sleeping }
    | _ => s
  | RLEvent.wake =>
    match s.phase with
    | RLPhase.sleeping =>
      if s.permit then
        { s with permit := false, phase := RLPhase.running, runs := s.runs + 1 }
      else { s with phase := RLPhase.parked }
    | _ => s

/-- Runs the rate-limiter model over a sequence of events. -/
def rlRun (s : RLState) (events : List RLEvent) : RLState :=
  events.foldl rlStep s

/-- Shape discriminator for RGB command values. -/
def GColorValue.isRgb : GColorValue → Bool
  | GColorValue.rgb _ => true
  | _ => false

/-- Shape discriminator for HSV command values. -/
def GColorValue.isHsv : GColorValue → Bool
  | GColorValue.hsv _ _ _ => true
  | _ => false

/-- The clamp helper never leaves `[lo, hi]` when the interval is
non-degenerate. -/
theorem cap_mem {α : Type} [LinearOrder α] (value lo hi : α) (h : lo ≤ hi) :
    lo ≤ cap value lo hi ∧ cap value lo hi ≤ hi := by
  unfold cap
  split_ifs with h1 h2
  · exact ⟨le_refl _, h⟩
  · exact ⟨h, le_refl _⟩
  · exact ⟨le_of_not_lt h1, le_of_not_lt h2⟩

/-- The clamp helper is the identity inside the interval. -/
theorem cap_eq_self {α : Type} [LinearOrder α] (value lo hi : α)
    (h1 : lo ≤ value) (h2 : value ≤ hi) : cap value lo hi = value := by
  unfold cap
  split_ifs with ha hb
  · exact absurd h1 (not_le.mpr ha)
  · exact absurd h2 (not_le.mpr hb)
  · rfl

/-- Wrapping is the identity on values already in the `i64` range. -/
theorem wrap64_eq_self (n : Int) (h1 : -(2 ^ 63) ≤ n) (h2 : n < 2 ^ 63) :
    wrap64 n = n := by
  unfold wrap64
  omega

/-- Every integer produced by the `i64` parser lies in the `i64` range. -/
theorem parseI64_bounds (s : String) (v : Int) (h : parseI64 s = some v) :
    -(2 ^ 63) ≤ v ∧ v < 2 ^ 63 := by
  unfold parseI64 at h
  rw [Option.bind_eq_some] at h
  obtain ⟨w, hw, h⟩ := h
  split at h
  · rename_i hc
    injection h with h2
    subst h2
    exact hc
  · cases h

/-- Every parsed `i64` property value lies in the `i64` range. -/
theorem valueI64_bounds (p : Property) (v : Int) (h : p.valueI64 = some v) :
    -(2 ^ 63) ≤ v ∧ v < 2 ^ 63 := by
  unfold Property.valueI64 at h
  rw [Option.bind_eq_some] at h
  obtain ⟨s, hs, h⟩ := h
  exact parseI64_bounds s v h

/-- Both ends of a parsed `i64` range lie in the `i64` range. -/
theorem rangeI64_bounds (p : Property) (lo hi : Int)
    (h : p.rangeI64 = some (lo, hi)) :
    (-(2 ^ 63) ≤ lo ∧ lo < 2 ^ 63) ∧ (-(2 ^ 63) ≤ hi ∧ hi < 2 ^ 63) := by
  unfold Property.rangeI64 at h
  rw [Option.bind_eq_some] at h
  obtain ⟨f, hf, h⟩ := h
  split at h
  · rename_i a b heq
    rw [Option.bind_eq_some] at h
    obtain ⟨va, ha, h⟩ := h
    rw [Option.map_eq_some'] at h
    obtain ⟨vb, hb, h2⟩ := h
    injection h2 with h4 h5
    subst h4
    subst h5
    exact ⟨parseI64_bounds a _ ha, parseI64_bounds b _ hb⟩
  · cases h

/-- C7: color conversion round-trips exactly as specified.  For an
RGB-format property with raw value `"17,34,51"`, `property_value_to_color`
yields spectrum-RGB `0x112233`, and `color_absolute_to_property_value`
with RGB command `0x445566` yields `"68,85,102"`; for an HSV-format
property with raw value `"280,50,60"`, `property_value_to_color` yields
`{hue 280, saturation 1/2, value 3/5}`, and the HSV command
`{hue 290, saturation 1/5, value 3/10}` yields `"290,20,30"`. -/
theorem C7_color_roundtrip :
    property_value_to_color
        { id := "color", datatype := some Datatype.color,
          format := some "rgb", value := some "17,34,51" } =
      some (GColor.spectrumRgb 0x112233) ∧
    color_absolute_to_property_value
        { id := "color", datatype := some Datatype.color,
          format := some "rgb", value := some "17,34,51" }
        { colorValue := GColorValue.rgb 0x445566 } =
      some "68,85,102" ∧
    property_value_to_color
        { id := "color", datatype := some Datatype.color,
          format := some "hsv", value := some "280,50,60" } =
      some (GColor.spectrumHsv 280 0.5 0.6) ∧
    color_absolute_to_property_value
        { id := "color", datatype := some Datatype.color,
          format := some "hsv", value := some "280,50,60" }
        { colorValue := GColorValue.hsv 290 0.2 0.3 } =
      some "290,20,30" := by
  refine ⟨by decide, by decide, ?_, ?_⟩
  · have hf : Property.colorFmt
        { id := "color", datatype := some Datatype.color,
          format := some "hsv", value := some "280,50,60" } =
        some ColorFormat.hsv := by decide
    have hv : Property.valueHsv
        { id := "color", datatype := some Datatype.color,
          format := some "hsv", value := some "280,50,60" } =
        some (ColorHsv.mk 280 50 60) := by decide
    simp only [property_value_to_color, hf, hv, Option.some_bind, Option.map]
    norm_num
  · have hf : Property.colorFmt
        { id := "color", datatype := some Datatype.color,
          format := some "hsv", value := some "280,50,60" } =
        some ColorFormat.hsv := by decide
    have h290 : ratAsU16 (290 : ℚ) = 290 := by
      unfold ratAsU16
      norm_num
      decide
    have h20 : ratAsU8 ((0.2 : ℚ) * 100) = 20 := by
      unfold ratAsU8
      norm_num
      decide
    have h30 : ratAsU8 ((0.3 : ℚ) * 100) = 30 := by
      unfold ratAsU8
      norm_num
      decide
    simp only [color_absolute_to_property_value, hf, Option.some_bind, h290, h20, h30]
    decide

/-- C2's failing input: an Integer property with the degenerate range
`"10:10"` and the parseable raw value `"10"`. -/
def degenerateRangeProperty : Property :=
  { id := "brightness", datatype := some Datatype.integer,
    format := some "10:10", value := some "10" }

/-- C2: the claim states that `property_value_to_percentage` is total and
its division by `max - min` is guarded.  The code divides by
`range.end() - range.start()` with no guard, so an Integer property whose
parseable range has `min = max` reaches an `i64` division by zero, which
panics in Rust and aborts the caller.  This theorem exhibits the failing
input: the value and range both parse, and the recorded panic condition
holds. -/
theorem C2_percentage_division_by_zero_panic :
    Property.valueI64 degenerateRangeProperty = some 10 ∧
    Property.rangeI64 degenerateRangeProperty = some (10, 10) ∧
    property_value_to_percentage_panics degenerateRangeProperty = true := by
  refine ⟨?_, ?_, ?_⟩ <;> decide

/-- C8: a property whose declared color format does not match the
command's tagged color representation (an RGB-format property given a
non-RGB command, or an HSV-format property given a non-HSV command) makes
`color_absolute_to_property_value` return no value; there is no error
path. -/
theorem C8_mismatched_color_returns_none (p : Property) (ca : GColorAbsolute) :
    (p.colorFmt = some ColorFormat.rgb → ca.colorValue.isRgb = false →
      color_absolute_to_property_value p ca = none) ∧
    (p.colorFmt = some ColorFormat.hsv → ca.colorValue.isHsv = false →
      color_absolute_to_property_value p ca = none) := by
  constructor <;> intro h1 h2 <;>
    simp only [color_absolute_to_property_value, h1, Option.some_bind] <;>
    cases hv : ca.colorValue <;>
    simp_all [GColorValue.isRgb, GColorValue.isHsv]

/-- C8 witness: an RGB-format color property given an HSV command yields
no value. -/
theorem C8_mismatched_color_returns_none_witness :
    Property.colorFmt
        { id := "color", datatype := some Datatype.color,
          format := some "rgb", value := some "17,34,51" } =
      some ColorFormat.rgb ∧
    GColorValue.isHsv (GColorValue.hsv 290 0.2 0.3) = true ∧
    color_absolute_to_property_value
        { id := "color", datatype := some Datatype.color,
          format := some "rgb", value := some "17,34,51" }
        { colorValue := GColorValue.hsv 290 0.2 0.3 } = none :=
  ⟨by decide, by decide,
    (C8_mismatched_color_returns_none
        { id := "color", datatype := some Datatype.color,
          format := some "rgb", value := some "17,34,51" }
        { colorValue := GColorValue.hsv 290 0.2 0.3 }).1
      (by decide) (by decide)⟩

/-- C10: a node whose only recognized property is `brightness` — no `on`,
no color property with a valid color format, no `temperature` — yields no
descriptor: `homie_node_to_google_home` returns `some` only when one of
the rules assigned a device type, and the Brightness rule assigns a trait
but never a type on its own. -/
theorem C10_brightness_alone_no_descriptor (device : Device) (node : Node)
    (pBr : Property)
    (hBr : node.prop "brightness" = some pBr)
    (hOn : node.prop "on" = none)
    (hTemp : node.prop "temperature" = none)
    (hColor : ∀ c, node.prop "color" = some c → c.colorFmt = none) :
    homie_node_to_google_home device node = none := by
  unfold homie_node_to_google_home
  cases hc : node.prop "color" with
  | none => simp [hOn, hTemp, hc, hBr]
  | some c => simp [hOn, hTemp, hc, hBr, hColor c hc]

/-- C10 witness: a concrete brightness-only node inside a ready device
produces no sync descriptor. -/
theorem C10_brightness_alone_no_descriptor_witness :
    homie_node_to_google_home
        { id := "device", state := HState.ready }
        { id := "node",
          properties := [("brightness",
            { id := "brightness", datatype := some Datatype.integer,
              format := some "0:100", value := some "55" })] } = none :=
  C10_brightness_alone_no_descriptor
    { id := "device", state := HState.ready }
    { id := "node",
      properties := [("brightness",
        { id := "brightness", datatype := some Datatype.integer,
          format := some "0:100", value := some "55" })] }
    { id := "brightness", datatype := some Datatype.integer,
      format := some "0:100", value := some "55" }
    (by decide) (by decide) (by decide)
    (by intro c h; simp [Node.prop, List.lookup] at h)

/-- C4: capability synthesis follows the rule table cumulatively with
last-write-wins type assignment.  (1) A node whose recognized properties
are exactly `on` and `brightness` yields a Light descriptor with traits
`[OnOff, Brightness]`.  (2) A node whose only recognized property is
`temperature` yields a Thermostat descriptor with traits
`[TemperatureSetting]` and the fixed thermostat attributes.  (3) Any node
containing `temperature` yields device type Thermostat, overriding
whatever an earlier rule assigned.  (4) A node with no recognized property
yields no descriptor. -/
theorem C4_capability_synthesis :
    (∀ (device : Device) (node : Node) (pOn pBr : Property),
      node.prop "on" = some pOn → node.prop "brightness" = some pBr →
      node.prop "color" = none → node.prop "temperature" = none →
      homie_node_to_google_home device node =
        some
          { id := device.id ++ "/" ++ node.id
            deviceType := GDeviceType.light
            traits := [GDeviceTrait.onOff, GDeviceTrait.brightness]
            name :=
              { defaultNames := none
                name := device.name.getD device.id ++ " " ++ node.name.getD node.id
                nicknames := some [node.name.getD node.id] }
            willReportState := true
            attributes := {} }) ∧
    (∀ (device : Device) (node : Node) (pT : Property),
      node.prop "on" = none → node.prop "brightness" = none →
      node.prop "color" = none → node.prop "temperature" = some pT →
      homie_node_to_google_home device node =
        some
          { id := device.id ++ "/" ++ node.id
            deviceType := GDeviceType.thermostat
            traits := [GDeviceTrait.temperatureSetting]
            name :=
              { defaultNames := none
                name := device.name.getD device.id ++ " " ++ node.name.getD node.id
                nicknames := some [node.name.getD node.id] }
            willReportState := true
            attributes :=
              { availableThermostatModes := some ["off"]
                thermostatTemperatureUnit := some GTemperatureUnit.celsius
                queryOnlyTemperatureSetting := some true } }) ∧
    (∀ (device : Device) (node : Node) (pOn pT : Property),
      node.prop "on" = some pOn → node.prop "temperature" = some pT →
      ∃ d, homie_node_to_google_home device node = some d ∧
        d.deviceType = GDeviceType.thermostat) ∧
    (∀ (device : Device) (node : Node),
      node.prop "on" = none → node.prop "brightness" = none →
      node.prop "color" = none → node.prop "temperature" = none →
      homie_node_to_google_home device node = none) := by
  refine ⟨?_, ?_, ?_, ?_⟩
  · intro device node pOn pBr hOn hBr hC hT
    simp [homie_node_to_google_home, hOn, hBr, hC, hT]
  · intro device node pT hOn hBr hC hT
    simp [homie_node_to_google_home, hOn, hBr, hC, hT]
  · intro device node pOn pT hOn hT
    cases hBr : node.prop "brightness" with
    | none =>
      cases hC : node.prop "color" with
      | none => simp [homie_node_to_google_home, hOn, hBr, hC, hT]
      | some c =>
        cases hcf : c.colorFmt with
        | none => simp [homie_node_to_google_home, hOn, hBr, hC, hT, hcf]
        | some fmt => simp [homie_node_to_google_home, hOn, hBr, hC, hT, hcf]
    | some pBr =>
      cases hC : node.prop "color" with
      | none => simp [homie_node_to_google_home, hOn, hBr, hC, hT]
      | some c =>
        cases hcf : c.colorFmt with
        | none => simp [homie_node_to_google_home, hOn, hBr, hC, hT, hcf]
        | some fmt => simp [homie_node_to_google_home, hOn, hBr, hC, hT, hcf]
  · intro device node hOn hBr hC hT
    simp [homie_node_to_google_home, hOn, hBr, hC, hT]

/-- C4 witness: the rule table evaluated on concrete nodes — an
on+brightness light, a temperature-only thermostat, an on+temperature
node (type overridden to Thermostat), and an empty node (no
descriptor). -/
theorem C4_capability_synthesis_witness :
    homie_node_to_google_home
        { id := "device", name := some "Device name", state := HState.ready }
        { id := "node", name := some "Node name",
          properties :=
            [("on", { id := "on", datatype := some Datatype.boolean }),
             ("brightness",
              { id := "brightness", datatype := some Datatype.integer,
                format := some "0:100" })] } =
      some
        { id := "device/node"
          deviceType := GDeviceType.light
          traits := [GDeviceTrait.onOff, GDeviceTrait.brightness]
          name :=
            { defaultNames := none
              name := "Device name Node name"
              nicknames := some ["Node name"] }
          willReportState := true
          attributes := {} } ∧
    homie_node_to_google_home
        { id := "device", name := some "Device name", state := HState.ready }
        { id := "node", name := some "Node name",
          properties :=
            [("temperature",
              { id := "temperature", datatype := some Datatype.float })] } =
      some
        { id := "device/node"
          deviceType := GDeviceType.thermostat
          traits := [GDeviceTrait.temperatureSetting]
          name :=
            { defaultNames := none
              name := "Device name Node name"
              nicknames := some ["Node name"] }
          willReportState := true
          attributes :=
            { availableThermostatModes := some ["off"]
              thermostatTemperatureUnit := some GTemperatureUnit.celsius
              queryOnlyTemperatureSetting := some true } } ∧
    (∃ d, homie_node_to_google_home
        { id := "device", state := HState.ready }
        { id := "node",
          properties :=
            [("on", { id := "on", datatype := some Datatype.boolean }),
             ("temperature",
              { id := "temperature", datatype := some Datatype.float })] } =
      some d ∧ d.deviceType = GDeviceType.thermostat) ∧
    homie_node_to_google_home
        { id := "device", state := HState.ready }
        { id := "node", properties := [] } = none :=
  ⟨C4_capability_synthesis.1
      { id := "device", name := some "Device name", state := HState.ready }
      { id := "node", name := some "Node name",
        properties :=
          [("on", { id := "on", datatype := some Datatype.boolean }),
           ("brightness",
            { id := "brightness", datatype := some Datatype.integer,
              format := some "0:100" })] }
      { id := "on", datatype := some Datatype.boolean }
      { id := "brightness", datatype := some Datatype.integer,
        format := some "0:100" }
      (by decide) (by decide) (by decide) (by decide),
    C4_capability_synthesis.2.1
      { id := "device", name := some "Device name", state := HState.ready }
      { id := "node", name := some "Node name",
        properties :=
          [("temperature",
            { id := "temperature", datatype := some Datatype.float })] }
      { id := "temperature", datatype := some Datatype.float }
      (by decide) (by decide) (by decide) (by decide),
    C4_capability_synthesis.2.2.1
      { id := "device", state := HState.ready }
      { id := "node",
        properties :=
          [("on", { id := "on", datatype := some Datatype.boolean }),
           ("temperature",
            { id := "temperature", datatype := some Datatype.float })] }
      { id := "on", datatype := some Datatype.boolean }
      { id := "temperature", datatype := some Datatype.float }
      (by decide) (by decide),
    C4_capability_synthesis.2.2.2
      { id := "device", state := HState.ready }
      { id := "node", properties := [] }
      (by decide) (by decide) (by decide) (by decide)⟩

/-- C5: a device whose state is neither `Ready` nor `Sleeping` is wholly
absent from the sync response (removing it changes nothing else), a query
addressed to any of its nodes answers `Offline` with the non-empty error
code `"offline"`, and a device in state `Ready` or `Sleeping` contributes
exactly its nodes' descriptors to the sync response. -/
theorem C5_unreachable_device_handling :
    (∀ (l1 l2 : List (String × Device)) (k : String) (d : Device),
      d.state ≠ HState.ready → d.state ≠ HState.sleeping →
      homie_devices_to_google_home (l1 ++ (k, d) :: l2) =
        homie_devices_to_google_home (l1 ++ l2)) ∧
    (∀ (devices : List (String × Device)) (rd : GQueryRequestDevice)
        (device : Device) (node : Node),
      get_homie_device_by_id devices rd.id = some (device, node) →
      device.state ≠ HState.ready → device.state ≠ HState.sleeping →
      get_homie_device devices rd =
        { state := {}, status := GQueryStatus.offline,
          errorCode := some "offline" } ∧ "offline" ≠ "") ∧
    (∀ (l1 l2 : List (String × Device)) (k : String) (d : Device),
      d.state = HState.ready ∨ d.state = HState.sleeping →
      homie_devices_to_google_home (l1 ++ (k, d) :: l2) =
        homie_devices_to_google_home l1 ++
          (d.nodes.filterMap fun kn => homie_node_to_google_home d kn.2) ++
          homie_devices_to_google_home l2) := by
  refine ⟨?_, ?_, ?_⟩
  · intro l1 l2 k d h1 h2
    have hb : (d.state == HState.ready || d.state == HState.sleeping) = false := by
      cases hs : d.state <;> simp_all <;> decide
    unfold homie_devices_to_google_home
    rw [List.flatMap_append, List.flatMap_cons, List.flatMap_append]
    simp [hb]
  · intro devices rd device node hres h1 h2
    have hb : (device.state == HState.ready || device.state == HState.sleeping) = false := by
      cases hs : device.state <;> simp_all <;> decide
    refine ⟨?_, by decide⟩
    unfold get_homie_device
    rw [hres]
    simp [hb]
  · intro l1 l2 k d h
    have hb : (d.state == HState.ready || d.state == HState.sleeping) = true := by
      rcases h with h | h <;> simp [h] <;> decide
    unfold homie_devices_to_google_home
    rw [List.flatMap_append, List.flatMap_cons]
    simp [hb]

/-- A concrete switch node used by the concrete-instance witnesses. -/
def sampleNode : Node :=
  { id := "n",
    properties :=
      [("on", { id := "on", datatype := some Datatype.boolean,
                value := some "true" })] }

/-- A concrete reachable device holding `sampleNode`. -/
def sampleReadyDevice : Device :=
  { id := "ok", state := HState.ready, nodes := [("n", sampleNode)] }

/-- A concrete lost device holding `sampleNode`. -/
def sampleLostDevice : Device :=
  { id := "lamp", state := HState.lost, nodes := [("n", sampleNode)] }

/-- C5 witness: a concrete lost device vanishes from sync and queries as
offline, while a concrete ready device is exposed. -/
theorem C5_unreachable_device_handling_witness :
    homie_devices_to_google_home
        [("lamp", sampleLostDevice), ("ok", sampleReadyDevice)] =
      homie_devices_to_google_home [("ok", sampleReadyDevice)] ∧
    (get_homie_device [("lamp", sampleLostDevice)] { id := "lamp/n" } =
        { state := {}, status := GQueryStatus.offline,
          errorCode := some "offline" } ∧ "offline" ≠ "") ∧
    homie_devices_to_google_home [("ok", sampleReadyDevice)] =
      homie_devices_to_google_home [] ++
        (sampleReadyDevice.nodes.filterMap fun kn =>
          homie_node_to_google_home sampleReadyDevice kn.2) ++
        homie_devices_to_google_home [] :=
  ⟨C5_unreachable_device_handling.1 [] [("ok", sampleReadyDevice)] "lamp"
      sampleLostDevice (by decide) (by decide),
    C5_unreachable_device_handling.2.1 [("lamp", sampleLostDevice)]
      { id := "lamp/n" } sampleLostDevice sampleNode (by decide)
      (by decide) (by decide),
    C5_unreachable_device_handling.2.2 [] [] "ok" sampleReadyDevice
      (Or.inl (by decide))⟩

/-- C9: an address that resolves to no device/node yields the per-item
result `Error`/`deviceNotFound` in both query and execute, and each batch
is handled pointwise, so every other address's result is exactly what it
would be if the unknown address were absent. -/
theorem C9_unknown_address_isolated :
    (∀ (devices : List (String × Device)) (rd : GQueryRequestDevice),
      get_homie_device_by_id devices rd.id = none →
      get_homie_device devices rd =
        { state := {}, status := GQueryStatus.error,
          errorCode := some "deviceNotFound" }) ∧
    (∀ (devices : List (String × Device)) (l1 l2 : List GQueryRequestDevice)
        (rd : GQueryRequestDevice),
      get_homie_devices devices (l1 ++ rd :: l2) =
        get_homie_devices devices l1 ++
          (rd.id, get_homie_device devices rd) :: get_homie_devices devices l2) ∧
    (∀ (setOk : String → String → String → String → Bool)
        (devices : List (String × Device)) (execution : GCommand) (cid : String),
      get_homie_device_by_id devices cid = none →
      execute_homie_device setOk devices execution cid =
        command_error [cid] "deviceNotFound") ∧
    (∀ (setOk : String → String → String → String → Bool)
        (devices : List (String × Device))
        (l1 l2 : List (GCommand × String)) (r : GCommand × String),
      execute_homie_devices setOk devices (l1 ++ r :: l2) =
        execute_homie_devices setOk devices l1 ++
          execute_homie_device setOk devices r.1 r.2 ::
            execute_homie_devices setOk devices l2) := by
  refine ⟨?_, ?_, ?_, ?_⟩
  · intro devices rd h
    simp [get_homie_device, h]
  · intro devices l1 l2 rd
    simp [get_homie_devices]
  · intro setOk devices execution cid h
    simp [execute_homie_device, h]
  · intro setOk devices l1 l2 r
    simp [execute_homie_devices]

/-- C9 witness: a batch holding a known and an unknown address — the
unknown one yields `deviceNotFound` and the known one is answered as in a
singleton batch. -/
theorem C9_unknown_address_isolated_witness :
    get_homie_device [("ok", sampleReadyDevice)] { id := "ghost/n" } =
      { state := {}, status := GQueryStatus.error,
        errorCode := some "deviceNotFound" } ∧
    get_homie_devices [("ok", sampleReadyDevice)]
        [{ id := "ok/n" }, { id := "ghost/n" }] =
      get_homie_devices [("ok", sampleReadyDevice)] [{ id := "ok/n" }] ++
        ("ghost/n",
          get_homie_device [("ok", sampleReadyDevice)] { id := "ghost/n" }) ::
          get_homie_devices [("ok", sampleReadyDevice)] [] ∧
    execute_homie_device (fun _ _ _ _ => true) [("ok", sampleReadyDevice)]
        (GCommand.onOff true) "ghost/n" =
      command_error ["ghost/n"] "deviceNotFound" ∧
    execute_homie_devices (fun _ _ _ _ => true) [("ok", sampleReadyDevice)]
        [(GCommand.onOff true, "ok/n"), (GCommand.onOff true, "ghost/n")] =
      execute_homie_devices (fun _ _ _ _ => true) [("ok", sampleReadyDevice)]
          [(GCommand.onOff true, "ok/n")] ++
        execute_homie_device (fun _ _ _ _ => true) [("ok", sampleReadyDevice)]
            (GCommand.onOff true) "ghost/n" ::
          execute_homie_devices (fun _ _ _ _ => true) [("ok", sampleReadyDevice)] [] :=
  ⟨C9_unknown_address_isolated.1 [("ok", sampleReadyDevice)] { id := "ghost/n" }
      (by decide),
    C9_unknown_address_isolated.2.1 [("ok", sampleReadyDevice)]
      [{ id := "ok/n" }] [] { id := "ghost/n" },
    C9_unknown_address_isolated.2.2.1 (fun _ _ _ _ => true)
      [("ok", sampleReadyDevice)] (GCommand.onOff true) "ghost/n" (by decide),
    C9_unknown_address_isolated.2.2.2 (fun _ _ _ _ => true)
      [("ok", sampleReadyDevice)] [(GCommand.onOff true, "ok/n")] []
      (GCommand.onOff true, "ghost/n")⟩

/-- C6: the state payload built on a fresh property-value change carries
an `online` field equal to the availability passed by the caller, and the
caller (`node_state_changed`) derives that availability from the owning
device's state — `online` iff the device is `Ready` or `Sleeping` — so it
is never an unconditionally hardcoded value. -/
theorem C6_online_derived_from_device_state :
    (∀ (node : Node) (b : Bool), (homie_node_to_state node b).online = b) ∧
    (∀ (devices : List (String × Device)) (deviceId nodeId : String)
        (device : Device) (node : Node),
      get_homie_node devices deviceId nodeId = some (device, node) →
      node_state_changed_payload devices deviceId nodeId =
        some (homie_node_to_state node
          (device.state == HState.ready || device.state == HState.sleeping))) := by
  constructor
  · intro node b
    rfl
  · intro devices deviceId nodeId device node h
    simp [node_state_changed_payload, h]

/-- C6 witness: the payload of a node of a concrete lost device carries
`online = false`. -/
theorem C6_online_derived_from_device_state_witness :
    (homie_node_to_state sampleNode true).online = true ∧
    node_state_changed_payload [("lamp", sampleLostDevice)] "lamp" "n" =
      some (homie_node_to_state sampleNode false) :=
  ⟨C6_online_derived_from_device_state.1 sampleNode true,
    C6_online_derived_from_device_state.2 [("lamp", sampleLostDevice)]
      "lamp" "n" sampleLostDevice sampleNode (by decide)⟩

/-- Folding over two event lists in sequence is folding the second from
the first's result. -/
theorem rlRun_append (s : RLState) (a b : List RLEvent) :
    rlRun s (a ++ b) = rlRun (rlRun s a) b :=
  List.foldl_append rlStep s a b

/-- Burst invariant of the rate limiter: while the background task is
running or sleeping, any mix of `execute` calls and callback completions
keeps it in running/sleeping, starts no new run, and leaves a stored
permit exactly when one was stored before or some `execute` arrived. -/
theorem rlRun_burst (mid : List RLEvent) :
    ∀ s : RLState,
    (∀ e ∈ mid, e = RLEvent.exec ∨ e = RLEvent.finish) →
    (s.phase = RLPhase.running ∨ s.phase = RLPhase.sleeping) →
    ((rlRun s mid).phase = RLPhase.running ∨
      (rlRun s mid).phase = RLPhase.sleeping) ∧
    (rlRun s mid).runs = s.runs ∧
    (rlRun s mid).permit = (s.permit || mid.contains RLEvent.exec) := by
  induction mid with
  | nil =>
    intro s _ hs
    exact ⟨hs, rfl, by simp [rlRun]⟩
  | cons e rest ih =>
    intro s hm hs
    obtain ⟨p, ph, r⟩ := s
    have hrest : ∀ x ∈ rest, x = RLEvent.exec ∨ x = RLEvent.finish :=
      fun x hx => hm x (List.mem_cons_of_mem e hx)
    have he := hm e (List.mem_cons_self e rest)
    rcases hs with hph | hph <;> simp only at hph <;> subst hph <;>
      rcases he with he | he <;> subst he
    · have hstep : rlRun { permit := p, phase := RLPhase.running, runs := r }
          (RLEvent.exec :: rest) =
          rlRun { permit := true, phase := RLPhase.running, runs := r } rest := rfl
      rw [hstep]
      obtain ⟨ha, hb, hc⟩ :=
        ih { permit := true, phase := RLPhase.running, runs := r } hrest (Or.inl rfl)
      exact ⟨ha, hb, by rw [hc]; simp⟩
    · have hstep : rlRun { permit := p, phase := RLPhase.running, runs := r }
          (RLEvent.finish :: rest) =
          rlRun { permit := p, phase := RLPhase.sleeping, runs := r } rest := rfl
      rw [hstep]
      obtain ⟨ha, hb, hc⟩ :=
        ih { permit := p, phase := RLPhase.sleeping, runs := r } hrest (Or.inr rfl)
      exact ⟨ha, hb, by rw [hc]; simp⟩
    · have hstep : rlRun { permit := p, phase := RLPhase.sleeping, runs := r }
          (RLEvent.exec :: rest) =
          rlRun { permit := true, phase := RLPhase.sleeping, runs := r } rest := rfl
      rw [hstep]
      obtain ⟨ha, hb, hc⟩ :=
        ih { permit := true, phase := RLPhase.sleeping, runs := r } hrest (Or.inr rfl)
      exact ⟨ha, hb, by rw [hc]; simp⟩
    · have hstep : rlRun { permit := p, phase := RLPhase.sleeping, runs := r }
          (RLEvent.finish :: rest) =
          rlRun { permit := p, phase := RLPhase.sleeping, runs := r } rest := rfl
      rw [hstep]
      obtain ⟨ha, hb, hc⟩ :=
        ih { permit := p, phase := RLPhase.sleeping, runs := r } hrest (Or.inr rfl)
      exact ⟨ha, hb, by rw [hc]; simp⟩

/-- Draining a pending permit: from running/sleeping with a stored
permit, one callback completion, one period expiry, another completion
and another expiry leave exactly one further run. -/
theorem rl_drain (t : RLState)
    (hph : t.phase = RLPhase.running ∨ t.phase = RLPhase.sleeping)
    (hpermit : t.permit = true) :
    (rlRun t [RLEvent.finish, RLEvent.wake, RLEvent.finish, RLEvent.wake]).runs =
      t.runs + 1 := by
  obtain ⟨p, ph, r⟩ := t
  simp only at hpermit
  subst hpermit
  rcases hph with h | h <;> simp only at h <;> subst h <;> rfl

/-- C3: one hundred `execute` calls within a single period — the first
arriving while the limiter is idle, the remaining ninety-nine arriving
while the callback is running or the period is still elapsing — cause the
wrapped callback to run exactly twice: once immediately and once more
after the window, never one hundred times and never zero times. -/
theorem C3_ratelimiter_coalesces_burst (mid : List RLEvent)
    (hmem : ∀ e ∈ mid, e = RLEvent.exec ∨ e = RLEvent.finish)
    (hcount : mid.count RLEvent.exec = 99) :
    (rlRun RLState.idle
      (RLEvent.exec ::
        (mid ++ [RLEvent.finish, RLEvent.wake, RLEvent.finish, RLEvent.wake]))).runs =
      2 := by
  have hmm : RLEvent.exec ∈ mid := List.count_pos_iff.mp (by omega)
  have hcontains : mid.contains RLEvent.exec = true :=
    List.elem_eq_true_of_mem hmm
  obtain ⟨hph, hruns, hperm⟩ :=
    rlRun_burst mid { permit := false, phase := RLPhase.running, runs := 1 }
      hmem (Or.inl rfl)
  have e1 : rlRun RLState.idle
      (RLEvent.exec ::
        (mid ++ [RLEvent.finish, RLEvent.wake, RLEvent.finish, RLEvent.wake])) =
      rlRun (rlRun { permit := false, phase := RLPhase.running, runs := 1 } mid)
        [RLEvent.finish, RLEvent.wake, RLEvent.finish, RLEvent.wake] := by
    show rlRun { permit := false, phase := RLPhase.running, runs := 1 }
        (mid ++ [RLEvent.finish, RLEvent.wake, RLEvent.finish, RLEvent.wake]) = _
    exact rlRun_append _ mid _
  rw [e1, rl_drain _ hph (by rw [hperm]; simpa using hmm), hruns]

/-- C3 witness: the burst of ninety-nine further `execute` calls, all
within the period, yields exactly two runs. -/
theorem C3_ratelimiter_coalesces_burst_witness :
    (∀ e ∈ List.replicate 99 RLEvent.exec,
      e = RLEvent.exec ∨ e = RLEvent.finish) ∧
    (List.replicate 99 RLEvent.exec).count RLEvent.exec = 99 ∧
    (rlRun RLState.idle
      (RLEvent.exec ::
        (List.replicate 99 RLEvent.exec ++
          [RLEvent.finish, RLEvent.wake, RLEvent.finish, RLEvent.wake]))).runs =
      2 :=
  ⟨fun e he => Or.inl (List.eq_of_mem_replicate he),
    by rw [List.count_replicate_self],
    C3_ratelimiter_coalesces_burst (List.replicate 99 RLEvent.exec)
      (fun e he => Or.inl (List.eq_of_mem_replicate he))
      (by rw [List.count_replicate_self])⟩

/-- C1 counterexample input: an Integer property with range `[0, 100]`
whose raw value `1000` lies outside the range. -/
def c1OutOfRangeProperty : Property :=
  { id := "brightness", datatype := some Datatype.integer,
    format := some "0:100", value := some "1000" }

/-- C1 counterexample: for the Integer property with range `[0, 100]` and
raw value `1000`, `property_value_to_percentage` clamps to `100` and
`percentage_to_property_value` maps that back to `"100"`, which is `900`
away from the original value — far beyond one rounding unit
(`⌈(max - min) / 100⌉ = 1`).  The claimed round-trip bound therefore
fails for values outside `[min, max]`. -/
theorem C1_roundtrip_counterexample :
    Property.valueI64 c1OutOfRangeProperty = some 1000 ∧
    Property.rangeI64 c1OutOfRangeProperty = some (0, 100) ∧
    property_value_to_percentage c1OutOfRangeProperty = some 100 ∧
    percentage_to_property_value c1OutOfRangeProperty 100 = some "100" ∧
    ¬((1000 : Int) - 100 ≤ ((100 : Int) - 0 + 99).tdiv 100) := by
  refine ⟨?_, ?_, ?_, ?_, ?_⟩ <;> decide

/-- C1 (amended): for an Integer property with parseable range
`[lo, hi]`, `lo < hi`, and parseable value `v`, where the range width
`hi - lo` and the scaled width `(hi - lo) * 100` fit in `i64` (beyond
that the Rust arithmetic wraps or panics instead of computing a
percentage): `property_value_to_percentage` returns `some pct` with
`0 ≤ pct ≤ 100` and no division panic, even when `v` lies outside the
range; and when `v` additionally lies inside `[lo, hi]`, no intermediate
of either conversion overflows `i64` (so debug and release builds agree
with this model), and feeding `pct` back through
`percentage_to_property_value` yields the string of a value `v2` at most
one rounding unit (`⌈(hi - lo) / 100⌉`) below `v`. -/
theorem C1_percentage_roundtrip_amended (p : Property) (lo hi v : Int)
    (hdt : p.datatype = some Datatype.integer)
    (hval : p.valueI64 = some v)
    (hrange : p.rangeI64 = some (lo, hi))
    (hlt : lo < hi)
    (hd63 : hi - lo < 2 ^ 63)
    (h100 : (hi - lo) * 100 < 2 ^ 63) :
    ∃ pct : Nat,
      property_value_to_percentage p = some pct ∧ pct ≤ 100 ∧
      property_value_to_percentage_panics p = false ∧
      (lo ≤ v → v ≤ hi →
        property_value_to_percentage_overflows p = false ∧
        percentage_to_property_value_overflows p pct = false ∧
        ∃ v2 : Int,
          percentage_to_property_value p pct = some (toString v2) ∧
          v2 ≤ v ∧ v - v2 ≤ (hi - lo + 99).tdiv 100) := by
  have hd : (0 : Int) < hi - lo := by omega
  have hwd : wrap64 (hi - lo) = hi - lo := wrap64_eq_self _ (by omega) hd63
  have hpc : property_value_to_percentage p =
      some (i64AsU8
        (cap ((wrap64 (wrap64 (v - lo) * 100)).tdiv (hi - lo)) 0 100)) := by
    simp [property_value_to_percentage, hdt, hval, hrange, hwd]
  obtain ⟨hcap0, hcap100⟩ :=
    cap_mem ((wrap64 (wrap64 (v - lo) * 100)).tdiv (hi - lo)) 0 100 (by norm_num)
  have hmod : cap ((wrap64 (wrap64 (v - lo) * 100)).tdiv (hi - lo)) 0 100 % 256 =
      cap ((wrap64 (wrap64 (v - lo) * 100)).tdiv (hi - lo)) 0 100 :=
    Int.emod_eq_of_lt hcap0 (by omega)
  have hpanic : property_value_to_percentage_panics p = false := by
    simp [property_value_to_percentage_panics, hdt, hval, hrange, hwd]
    omega
  refine ⟨i64AsU8 (cap ((wrap64 (wrap64 (v - lo) * 100)).tdiv (hi - lo)) 0 100),
    hpc, ?_, hpanic, ?_⟩
  · unfold i64AsU8
    rw [hmod]
    exact Int.toNat_le.mpr (by exact_mod_cast hcap100)
  · intro hlov hvhi
    obtain ⟨⟨hlo63, _⟩, ⟨_, hhi63⟩⟩ := rangeI64_bounds p lo hi hrange
    obtain ⟨hvlo63, hv63⟩ := valueI64_bounds p v hval
    have hv1 : wrap64 (v - lo) = v - lo := wrap64_eq_self _ (by omega) (by omega)
    have hv2 : wrap64 ((v - lo) * 100) = (v - lo) * 100 :=
      wrap64_eq_self _ (by omega) (by omega)
    rw [hv1, hv2]
    have hnn : (0 : Int) ≤ (v - lo) * 100 := by omega
    have htd : ((v - lo) * 100).tdiv (hi - lo) = (v - lo) * 100 / (hi - lo) :=
      Int.tdiv_eq_ediv hnn (le_of_lt hd)
    have hq1nn : (0 : Int) ≤ (v - lo) * 100 / (hi - lo) :=
      Int.ediv_nonneg hnn (le_of_lt hd)
    have hq1le : (v - lo) * 100 / (hi - lo) < 101 :=
      (Int.ediv_lt_iff_lt_mul hd).mpr (by omega)
    have hcapid : cap (((v - lo) * 100).tdiv (hi - lo)) 0 100 =
        (v - lo) * 100 / (hi - lo) := by
      rw [htd]
      exact cap_eq_self _ _ _ hq1nn (by omega)
    obtain ⟨hcap0c, hcap100c⟩ :=
      cap_mem (((v - lo) * 100).tdiv (hi - lo)) 0 100 (by norm_num)
    have hmodc : cap (((v - lo) * 100).tdiv (hi - lo)) 0 100 % 256 =
        cap (((v - lo) * 100).tdiv (hi - lo)) 0 100 :=
      Int.emod_eq_of_lt hcap0c (by omega)
    have hpctInt :
        ((i64AsU8 (cap (((v - lo) * 100).tdiv (hi - lo)) 0 100) : Nat) : Int) =
        (v - lo) * 100 / (hi - lo) := by
      unfold i64AsU8
      rw [hmodc, hcapid]
      exact Int.toNat_of_nonneg hq1nn
    have hA1 : ((v - lo) * 100 / (hi - lo)) * (hi - lo) ≤ (v - lo) * 100 :=
      (Int.le_ediv_iff_mul_le hd).mp (le_refl ((v - lo) * 100 / (hi - lo)))
    have hA2 : (v - lo) * 100 <
        ((v - lo) * 100 / (hi - lo)) * (hi - lo) + (hi - lo) := by
      have h2 := Int.lt_ediv_add_one_mul_self ((v - lo) * 100) hd
      rw [add_mul, one_mul] at h2
      exact h2
    have hAnn : (0 : Int) ≤ ((v - lo) * 100 / (hi - lo)) * (hi - lo) :=
      mul_nonneg hq1nn (le_of_lt hd)
    have hv3 : wrap64 (((v - lo) * 100 / (hi - lo)) * (hi - lo)) =
        ((v - lo) * 100 / (hi - lo)) * (hi - lo) :=
      wrap64_eq_self _ (by omega) (by omega)
    have hq2td : (((v - lo) * 100 / (hi - lo)) * (hi - lo)).tdiv 100 =
        ((v - lo) * 100 / (hi - lo)) * (hi - lo) / 100 :=
      Int.tdiv_eq_ediv hAnn (by norm_num)
    have hB1 : (((v - lo) * 100 / (hi - lo)) * (hi - lo) / 100) * 100 ≤
        ((v - lo) * 100 / (hi - lo)) * (hi - lo) :=
      (Int.le_ediv_iff_mul_le (by norm_num)).mp
        (le_refl (((v - lo) * 100 / (hi - lo)) * (hi - lo) / 100))
    have hB2 : ((v - lo) * 100 / (hi - lo)) * (hi - lo) <
        (((v - lo) * 100 / (hi - lo)) * (hi - lo) / 100) * 100 + 100 := by
      have h2 := Int.lt_ediv_add_one_mul_self
        (((v - lo) * 100 / (hi - lo)) * (hi - lo))
        (show (0 : Int) < 100 by norm_num)
      rw [add_mul, one_mul] at h2
      exact h2
    have hv4 : wrap64 (lo + (((v - lo) * 100 / (hi - lo)) * (hi - lo)).tdiv 100) =
        lo + (((v - lo) * 100 / (hi - lo)) * (hi - lo)).tdiv 100 := by
      rw [hq2td]
      exact wrap64_eq_self _ (by omega) (by omega)
    have hov1 : property_value_to_percentage_overflows p = false := by
      simp [property_value_to_percentage_overflows, hdt, hval, hrange, hv1, fitsI64]
      omega
    have hov2 : percentage_to_property_value_overflows p
        (i64AsU8 (cap (((v - lo) * 100).tdiv (hi - lo)) 0 100)) = false := by
      simp [percentage_to_property_value_overflows, hdt, hrange, hwd, hpctInt,
        hv3, hq2td, fitsI64]
      omega
    have hback : percentage_to_property_value p
        (i64AsU8 (cap (((v - lo) * 100).tdiv (hi - lo)) 0 100)) =
        some (toString
          (lo + (((v - lo) * 100 / (hi - lo)) * (hi - lo)).tdiv 100)) := by
      simp [percentage_to_property_value, hdt, hrange, hwd, hpctInt, hv3, hv4]
    refine ⟨hov1, hov2,
      lo + (((v - lo) * 100 / (hi - lo)) * (hi - lo)).tdiv 100, hback, ?_, ?_⟩
    · rw [hq2td]
      omega
    · rw [hq2td]
      have hC : (hi - lo + 99).tdiv 100 = (hi - lo + 99) / 100 :=
        Int.tdiv_eq_ediv (by omega) (by norm_num)
      have hC1 : ((hi - lo + 99) / 100) * 100 ≤ hi - lo + 99 :=
        (Int.le_ediv_iff_mul_le (by norm_num)).mp (le_refl ((hi - lo + 99) / 100))
      have hC2 : hi - lo + 99 < ((hi - lo + 99) / 100) * 100 + 100 := by
        have h2 := Int.lt_ediv_add_one_mul_self (hi - lo + 99)
          (show (0 : Int) < 100 by norm_num)
        rw [add_mul, one_mul] at h2
        exact h2
      rw [hC]
      omega

/-- C1 witness: the amended round-trip evaluated on the repository's own
test property — Integer datatype, range `"10:20"`, value `"13"`. -/
theorem C1_percentage_roundtrip_amended_witness :
    (Property.valueI64
        { id := "brightness", datatype := some Datatype.integer,
          format := some "10:20", value := some "13" } = some 13 ∧
      Property.rangeI64
        { id := "brightness", datatype := some Datatype.integer,
          format := some "10:20", value := some "13" } = some (10, 20) ∧
      (10 : Int) < 20 ∧ (20 : Int) - 10 < 2 ^ 63 ∧
      ((20 : Int) - 10) * 100 < 2 ^ 63) ∧
    (∃ pct : Nat,
      property_value_to_percentage
          { id := "brightness", datatype := some Datatype.integer,
            format := some "10:20", value := some "13" } = some pct ∧
      pct ≤ 100 ∧
      property_value_to_percentage_panics
          { id := "brightness", datatype := some Datatype.integer,
            format := some "10:20", value := some "13" } = false ∧
      ((10 : Int) ≤ 13 → (13 : Int) ≤ 20 →
        property_value_to_percentage_overflows
            { id := "brightness", datatype := some Datatype.integer,
              format := some "10:20", value := some "13" } = false ∧
        percentage_to_property_value_overflows
            { id := "brightness", datatype := some Datatype.integer,
              format := some "10:20", value := some "13" } pct = false ∧
        ∃ v2 : Int,
          percentage_to_property_value
              { id := "brightness", datatype := some Datatype.integer,
                format := some "10:20", value := some "13" } pct =
            some (toString v2) ∧
          v2 ≤ 13 ∧ 13 - v2 ≤ ((20 : Int) - 10 + 99).tdiv 100)) :=
  ⟨⟨by decide, by decide, by decide, by decide, by decide⟩,
    C1_percentage_roundtrip_amended
      { id := "brightness", datatype := some Datatype.integer,
        format := some "10:20", value := some "13" }
      10 20 13 (by decide) (by decide) (by decide) (by decide) (by decide)
      (by decide)⟩

end Homieflow
